/-
Verification of the beacon-go repository's core logic: the Query data model,
its input validation, the rendering of the SQL WHERE predicate, the Execute
wrapper around the BigQuery call, and the HTTP handler control flow.

The repository carries several historical variants of the same logic.  The
embedding covers the variants the claims cite:
  * `QueryCoord` — the single-coordinate Query of `internal/query/query.go`
    and the first variant of `internal/variants/variants.go`;
  * `QueryV` — the Start/End/StartMin/StartMax/EndMin/EndMax Query shared by
    `src/unnamed/part_000` (namespace `P0`) and the second variant of
    `internal/variants/variants.go` (namespace `V2`).
Errors (Go `error` values) are embedded as `Option String` (`none` = nil);
Go `*int64` pointers are embedded as `Option Int`; the wraparound of Go
`int64` addition is made explicit by `addInt64`.
-/
import Mathlib

/-- Wrap a mathematical integer into the Go `int64` range, two's complement. -/
def int64wrap (a : Int) : Int := (a + 2 ^ 63) % 2 ^ 64 - 2 ^ 63

/-- Go `int64` addition (`+` on int64), which wraps on overflow. -/
def addInt64 (a b : Int) : Int := int64wrap (a + b)

/-- Embeds `strings.Join(clauses, " AND ")` from the Go sources. -/
def joinAnd : List String → String
  | [] => ""
  | [c] => c
  | c :: cs => c ++ " AND " ++ joinAnd cs

/-- Embeds the `simpleClause` helper of the string-valued whereClauses:
`if dbColumn != "" && value != "" { add("%s='%s'", dbColumn, value) }`.
Returns the (zero or one) clauses appended by the call. -/
def simpleClause (dbColumn value : String) : List String :=
  if dbColumn != "" && value != "" then [dbColumn ++ "='" ++ value ++ "'"] else []

/-- The single-coordinate Query of `internal/query/query.go` and of the first
variant in `internal/variants/variants.go` (fields `RefName`, `Allele`,
`Coord *int64`).  Defaults mirror the Go zero value of the struct. -/
structure QueryCoord where
  RefName : String := ""
  Allele : String := ""
  Coord : Option Int := none
deriving DecidableEq, Repr

/-- Embeds `(q *Query) ValidateInput` of `internal/query/query.go` (identical
in the first `internal/variants/variants.go` variant). -/
def QueryCoord.ValidateInput (q : QueryCoord) : Option String :=
  if q.RefName = "" then some "missing chromosome name"
  else if q.Allele = "" then some "missing allele"
  else if q.Coord = none then some "missing coordinate"
  else none

/-- Embeds `(q *Query) whereClause` of `internal/query/query.go` (identical in
the first `internal/variants/variants.go` variant).  The coordinate clause is
`add("v.start <= %d AND %d < v.end", *q.Coord, *q.Coord+1)`. -/
def QueryCoord.whereClause (q : QueryCoord) : String :=
  joinAnd
    (simpleClause "reference_name" q.RefName ++
     simpleClause "reference_bases" q.Allele ++
     (match q.Coord with
      | some c =>
          ["v.start <= " ++ toString c ++ " AND " ++ toString (addInt64 c 1) ++ " < v.end"]
      | none => []))

/-- A row of the backend allele table, restricted to the two columns the
coordinate clause constrains (`v.start`, `v.end`; `end` is a Lean keyword, so
the second column is named `endp`). -/
structure VarRow where
  start : Int
  endp : Int
deriving DecidableEq, Repr

/-- Whether a backend row satisfies the rendered single-coordinate clause.
This is the direct integer-comparison reading of the clause the source
renders, `v.start <= c AND (c+1) < v.end`. -/
def coordClauseSat (c : Int) (r : VarRow) : Bool :=
  decide (r.start ≤ c) && decide (addInt64 c 1 < r.endp)

/-- The richer Query struct shared by `src/unnamed/part_000` and the second
variant of `internal/variants/variants.go`.  Defaults mirror the Go zero
value of the struct. -/
structure QueryV where
  RefName : String := ""
  Allele : String := ""
  Start : Option Int := none
  End : Option Int := none
  StartMin : Option Int := none
  StartMax : Option Int := none
  EndMin : Option Int := none
  EndMax : Option Int := none
deriving DecidableEq, Repr

namespace P0

/-- Embeds `(q *Query) validateCoordinates` of `src/unnamed/part_000`
(lines 90-109). -/
def validateCoordinates (q : QueryV) : Option String :=
  let precisePosition : Bool := q.Start.isSome && (q.End.isSome || q.Allele != "")
  let imprecisePosition : Bool :=
    q.StartMin.isSome && q.StartMax.isSome && q.EndMin.isSome && q.EndMax.isSome
  if precisePosition && imprecisePosition then
    some "please query either precise or imprecise position"
  else if precisePosition || imprecisePosition then
    none
  else if (q.Start.isSome && q.End.isSome) || q.StartMin.isSome || q.StartMax.isSome
      || q.EndMin.isSome || q.EndMax.isSome then
    some "restrictions not met for provided coordinates"
  else
    none

/-- Embeds `(q *Query) ValidateInput` of `src/unnamed/part_000` (lines 77-88);
`validating coordinates: %v` is the wrapping applied by `fmt.Errorf`. -/
def ValidateInput (q : QueryV) : Option String :=
  if q.RefName = "" then some "missing chromosome name"
  else if q.Allele = "" then some "missing allele"
  else
    match validateCoordinates q with
    | some e => some ("validating coordinates: " ++ e)
    | none => none

/-- Embeds `(q *Query) bqCoordinatesToWhereClause` of `src/unnamed/part_000`
(lines 127-138), returning the clauses it adds, in order. -/
def bqCoordinatesToWhereClause (q : QueryV) : List String :=
  (match q.Start with
   | some s =>
       match q.End with
       | some e => ["v.start = " ++ toString s ++ " AND " ++ toString e ++ " = v.end"]
       | none => ["v.start = " ++ toString s]
   | none => []) ++
  (match q.StartMin, q.StartMax, q.EndMin, q.EndMax with
   | some smin, some smax, some emin, some emax =>
       [toString smin ++ " <= v.start AND v.start <= " ++ toString smax ++
        " AND " ++ toString emin ++ " <= v.end AND v.end <= " ++ toString emax]
   | _, _, _, _ => [])

/-- Embeds `(q *Query) whereClause` of `src/unnamed/part_000` (lines 111-125). -/
def whereClause (q : QueryV) : String :=
  joinAnd
    (simpleClause "reference_name" q.RefName ++
     simpleClause "reference_bases" q.Allele ++
     bqCoordinatesToWhereClause q)

/-- Embeds the SQL text built at the top of `(q *Query) Execute` of
`src/unnamed/part_000` (lines 49-56). -/
def buildQuery (tableID : String) (q : QueryV) : String :=
  "\n\t\tSELECT count(v.reference_name) as count\n\t\tFROM `" ++ tableID ++
  "` as v\n\t\tWHERE " ++ whereClause q ++ "\n\t\tLIMIT 1"

/-- Embeds `(q *Query) Execute` of `src/unnamed/part_000` (lines 48-74).  The
three external interactions are passed as oracles: `newClient` is the outcome
of `bigquery.NewClient`, `read` the outcome of `client.Query(query).Read`
applied to the built SQL text, and `next` the outcome of `it.Next(&result)`
carrying the decoded `result.Count` on success.  The result pairs the
returned bool with the returned error. -/
def Execute (q : QueryV) (tableID : String)
    (newClient : Except String Unit)
    (read : String → Except String Unit)
    (next : Except String Int) : Bool × Option String :=
  let query := buildQuery tableID q
  match newClient with
  | .error e => (false, some ("creating bigquery client: " ++ e))
  | .ok _ =>
    match read query with
    | .error e => (false, some ("querying database: " ++ e))
    | .ok _ =>
      match next with
      | .error e => (false, some ("reading query result: " ++ e))
      | .ok count => (decide (count > 0), none)

end P0

/-- The arguments a `variants.go` second-variant `add` call passes to
`fmt.Sprintf`: a Go string, a dereferenced `int64` value, or an `*int64`
pointer passed without dereference (embedded by its pointee). -/
inductive GoArg where
  | str : String → GoArg
  | int : Int → GoArg
  | ptr : Option Int → GoArg
deriving DecidableEq, Repr

namespace V2

/-- Embeds `(q *Query) validateCoordinates` of the second variant of
`internal/variants/variants.go` (lines 178-187). -/
def validateCoordinates (q : QueryV) : Option String :=
  if q.Start.isSome && (q.End.isSome || q.Allele != "") &&
      q.StartMin.isNone && q.StartMax.isNone && q.EndMin.isNone && q.EndMax.isNone then
    none
  else if q.StartMin.isSome && q.StartMax.isSome && q.EndMin.isSome && q.EndMax.isSome &&
      q.Start.isNone && q.End.isNone then
    none
  else
    some "an unusable combination of coordinate parameters was specified"

/-- Embeds `(q *Query) ValidateInput` of the second variant of
`internal/variants/variants.go` (lines 165-176). -/
def ValidateInput (q : QueryV) : Option String :=
  if q.RefName = "" then some "missing chromosome name"
  else if q.Allele = "" then some "missing allele"
  else
    match validateCoordinates q with
    | some e => some ("validating coordinates: " ++ e)
    | none => none

/-- Embeds `(q *Query) whereClause` of the second variant of
`internal/variants/variants.go` (lines 189-224) at the level of the `add`
calls it performs: each element is the format string together with the
arguments passed, in source order.  Note that the clause guarded by
`q.EndMax != nil` passes `q.StartMax` as its argument (line 221), and that
the range clauses pass the pointers themselves, not their pointees. -/
def whereClause (q : QueryV) : List (String × List GoArg) :=
  (if q.RefName != "" then [("%s='%s'", [GoArg.str "reference_name", GoArg.str q.RefName])] else []) ++
  (if q.Allele != "" then [("%s='%s'", [GoArg.str "reference_bases", GoArg.str q.Allele])] else []) ++
  (if q.Start.isSome then [("%s=%d", [GoArg.str "start_position", GoArg.ptr q.Start])] else []) ++
  (if q.End.isSome then [("%s=%d", [GoArg.str "end_position", GoArg.ptr q.End])] else []) ++
  (if q.StartMin.isSome then [("%d <= v.start_position", [GoArg.ptr q.StartMin])] else []) ++
  (if q.StartMax.isSome then [("%v.start_position <= %d", [GoArg.ptr q.StartMax])] else []) ++
  (if q.EndMin.isSome then [("%d <= v.end_position", [GoArg.ptr q.EndMin])] else []) ++
  (if q.EndMax.isSome then [("v.end_position <= %d", [GoArg.ptr q.StartMax])] else [])

end V2

/-- The classes of HTTP replies the handlers produce: `http.Error` with
`StatusBadRequest`, `http.Error` with `StatusInternalServerError`, or the
XML existence response written by `writeResponse`. -/
inductive Response where
  | badRequest : String → Response
  | internalError : String → Response
  | success : Bool → Response
deriving DecidableEq, Repr

/-- The backend-facing calls a handler makes, in order: `api.newBQClient`
and `query.Execute`. -/
inductive Effect where
  | newBQClientCall : Effect
  | executeCall : Effect
deriving DecidableEq, Repr

/-- Embeds `(api *Server) Query` of `src/beacon/beacon.go` (lines 89-113).
`parsed` is the outcome of `parseInput(r)`, `newBQClient` the outcome of
`api.newBQClient`, and `execute` the (bool, error) outcome of
`query.Execute`.  The second component records which backend-facing calls
were made, in order. -/
def serverQuery (parsed : Except String QueryCoord)
    (newBQClient : Except String Unit)
    (execute : QueryCoord → Bool × Option String) : Response × List Effect :=
  match parsed with
  | .error e => (.badRequest ("parsing input: " ++ e), [])
  | .ok query =>
    match query.ValidateInput with
    | some e => (.badRequest ("validating input: " ++ e), [])
    | none =>
      match newBQClient with
      | .error e => (.badRequest ("creating bigquery client: " ++ e), [.newBQClientCall])
      | .ok _ =>
        match execute query with
        | (_, some e) =>
            (.internalError ("computing result: " ++ e), [.newBQClientCall, .executeCall])
        | (found, none) => (.success found, [.newBQClientCall, .executeCall])

/-- Embeds `(api *BeaconAPI) Query` of `src/unnamed/part_001` (lines 54-73),
which has no separate client-construction step: `query.Execute` itself
receives the project ID. -/
def beaconAPIQuery (parsed : Except String QueryCoord)
    (execute : QueryCoord → Bool × Option String) : Response × List Effect :=
  match parsed with
  | .error e => (.badRequest ("parsing input: " ++ e), [])
  | .ok query =>
    match query.ValidateInput with
    | some e => (.badRequest ("validating input: " ++ e), [])
    | none =>
      match execute query with
      | (_, some e) => (.internalError ("computing result: " ++ e), [.executeCall])
      | (found, none) => (.success found, [.executeCall])

/- Helper lemmas shared by the theorems below. -/

/-- `simpleClause` appends exactly one clause, the raw interpolation
`dbColumn ++ "='" ++ value ++ "'"`, whenever both strings are nonempty. -/
theorem simpleClause_pos (col v : String) (hc : col ≠ "") (hv : v ≠ "") :
    simpleClause col v = [col ++ "='" ++ v ++ "'"] := by
  simp [simpleClause, hc, hv]

/-- The string the coordinate clauses of a `P0` whereClause contribute after
the two equality clauses: empty when there are none, otherwise " AND "
followed by the AND-join of the clauses. -/
def coordTail : List String → String
  | [] => ""
  | c :: cs => " AND " ++ joinAnd (c :: cs)

/-- Joining a list with at least two clauses puts the first two in order and
appends the `coordTail` of the remainder. -/
theorem joinAnd_cons_cons (x y : String) (cs : List String) :
    joinAnd (x :: y :: cs) = x ++ " AND " ++ y ++ coordTail cs := by
  cases cs with
  | nil => simp [joinAnd, coordTail, String.append_empty]
  | cons c cs' => simp [joinAnd, coordTail, String.append_assoc]

/- Concrete queries named by the claim theorems. -/

/-- The round-trip query of the spec: chr17, allele A, coordinate 41196407. -/
def pointQuery : QueryCoord := { RefName := "chr17", Allele := "A", Coord := some 41196407 }

/-- A query mixing a precise-mode field (`Start`) with an imprecise-mode
field (`StartMin`). -/
def mixedModesQuery : QueryV :=
  { RefName := "chr1", Allele := "A", Start := some 100, StartMin := some 50 }

/-- A query with only the `End` coordinate field set. -/
def endOnlyQuery : QueryV := { RefName := "chr1", Allele := "A", End := some 200 }

/-- The imprecise-mode query of the spec range scenario. -/
def impreciseQuery : QueryV :=
  { RefName := "chr1", Allele := "A",
    StartMin := some 100, StartMax := some 200, EndMin := some 150, EndMax := some 250 }

/-- C1: the claim says the rendered single-coordinate predicate expresses
half-open containment, so that a backend row with start = C, end = C+1
satisfies it.  The code instead renders `v.start <= C AND C+1 < v.end`: at
C = 41196407 the validated query renders that predicate, the row
(start = C, end = C+1) does NOT satisfy it (the row start = C+1 indeed does
not), and only rows with end ≥ C+2 do — an off-by-one against the code's own
"End is exclusive. Search exactly for coordinate" comment. -/
theorem c1_single_coordinate_predicate_off_by_one :
    QueryCoord.ValidateInput pointQuery = none ∧
    QueryCoord.whereClause pointQuery =
      "reference_name='chr17' AND reference_bases='A' AND v.start <= 41196407 AND 41196408 < v.end" ∧
    coordClauseSat 41196407 { start := 41196407, endp := 41196408 } = false ∧
    coordClauseSat 41196407 { start := 41196408, endp := 41196500 } = false ∧
    coordClauseSat 41196407 { start := 41196407, endp := 41196409 } = true :=
  ⟨by decide, by decide, by decide, by decide, by decide⟩

/-- C2: the claim says any Query mixing a precise-mode field with an
imprecise-mode field fails validation.  `part_000` accepts the mix
Start+StartMin (its imprecise flag requires all four range fields), and its
rendering then silently drops StartMin; the older variants.go variant
rejects the same query. -/
theorem c2_mixed_coordinate_modes_accepted :
    P0.ValidateInput mixedModesQuery = none ∧
    mixedModesQuery.Start = some 100 ∧
    mixedModesQuery.StartMin = some 50 ∧
    P0.whereClause mixedModesQuery =
      "reference_name='chr1' AND reference_bases='A' AND v.start = 100" ∧
    V2.ValidateInput mixedModesQuery =
      some "validating coordinates: an unusable combination of coordinate parameters was specified" :=
  ⟨by decide, by decide, by decide, by decide, by decide⟩

/-- C3: the claim says the imprecise-mode condition takes each bound from the
correspondingly named field, the upper bound on end from endMax.  `part_000`
renders exactly that; the second variants.go variant instead passes
`q.StartMax` for the `v.end_position <= %d` clause (and passes pointers, not
values, throughout its range clauses), so its end upper bound comes from
StartMax, never from EndMax. -/
theorem c3_imprecise_end_bound_uses_startMax :
    P0.whereClause impreciseQuery =
      "reference_name='chr1' AND reference_bases='A' AND 100 <= v.start AND v.start <= 200 AND 150 <= v.end AND v.end <= 250" ∧
    impreciseQuery.StartMax = some 200 ∧
    impreciseQuery.EndMax = some 250 ∧
    V2.whereClause impreciseQuery =
      [("%s='%s'", [GoArg.str "reference_name", GoArg.str "chr1"]),
       ("%s='%s'", [GoArg.str "reference_bases", GoArg.str "A"]),
       ("%d <= v.start_position", [GoArg.ptr (some 100)]),
       ("%v.start_position <= %d", [GoArg.ptr (some 200)]),
       ("%d <= v.end_position", [GoArg.ptr (some 150)]),
       ("v.end_position <= %d", [GoArg.ptr (some 200)])] :=
  ⟨by decide, by decide, by decide, by decide⟩

/-- C4: every Query with empty referenceName or empty allele fails validation
with a missing-field error, regardless of the coordinate fields; the
`part_000` and second variants.go validators agree on these inputs. -/
theorem c4_missing_field (q : QueryV) (h : q.RefName = "" ∨ q.Allele = "") :
    (P0.ValidateInput q = some "missing chromosome name" ∨
     P0.ValidateInput q = some "missing allele") ∧
    V2.ValidateInput q = P0.ValidateInput q := by
  by_cases hR : q.RefName = ""
  · exact ⟨Or.inl (by simp [P0.ValidateInput, hR]),
      by simp [P0.ValidateInput, V2.ValidateInput, hR]⟩
  · have hA : q.Allele = "" := h.resolve_left hR
    exact ⟨Or.inr (by simp [P0.ValidateInput, hR, hA]),
      by simp [P0.ValidateInput, V2.ValidateInput, hR, hA]⟩

/-- Witness for C4: a concrete Query with empty referenceName (and a
coordinate field set) fails with the missing-chromosome error in both
validators. -/
theorem c4_missing_field_witness :
    (P0.ValidateInput { RefName := "", Allele := "A", Start := some 5 } =
        some "missing chromosome name" ∨
     P0.ValidateInput { RefName := "", Allele := "A", Start := some 5 } =
        some "missing allele") ∧
    V2.ValidateInput { RefName := "", Allele := "A", Start := some 5 } =
      P0.ValidateInput { RefName := "", Allele := "A", Start := some 5 } :=
  c4_missing_field { RefName := "", Allele := "A", Start := some 5 } (Or.inl rfl)

/-- C5: the claim says any partial coordinate combination fails validation.
`part_000` accepts a Query with only `End` set (the final guard tests
`Start != nil && End != nil`, which cannot fire there, instead of
`End != nil`) and then silently drops End from the predicate; the older
variants.go variant rejects the same query. -/
theorem c5_end_only_accepted :
    P0.ValidateInput endOnlyQuery = none ∧
    endOnlyQuery.End = some 200 ∧
    endOnlyQuery.Start = none ∧
    endOnlyQuery.StartMin = none ∧
    endOnlyQuery.StartMax = none ∧
    endOnlyQuery.EndMin = none ∧
    endOnlyQuery.EndMax = none ∧
    P0.whereClause endOnlyQuery = "reference_name='chr1' AND reference_bases='A'" ∧
    V2.ValidateInput endOnlyQuery =
      some "validating coordinates: an unusable combination of coordinate parameters was specified" :=
  ⟨by decide, by decide, by decide, by decide, by decide, by decide, by decide, by decide, by decide⟩

/-- Counterexample for C6: values are NOT matched as opaque literals — two
distinct Queries, one with a quote-bearing allele and one with a
quote-bearing reference name, render the identical predicate, whose quoting
the injected values have restructured into three equality clauses. -/
theorem c6_injection_counterexample :
    QueryCoord.whereClause { RefName := "c", Allele := "A' AND reference_bases='B" } =
      QueryCoord.whereClause { RefName := "c' AND reference_bases='A", Allele := "B" } ∧
    ({ RefName := "c", Allele := "A' AND reference_bases='B" } : QueryCoord) ≠
      { RefName := "c' AND reference_bases='A", Allele := "B" } ∧
    QueryCoord.whereClause { RefName := "c", Allele := "A' AND reference_bases='B" } =
      "reference_name='c' AND reference_bases='A' AND reference_bases='B'" :=
  ⟨by decide, by decide, by decide⟩

/-- C6 as amended: referenceName and allele are interpolated verbatim into
the predicate by string formatting, with no escaping and no parameter
binding, in both the single-coordinate and the `part_000` whereClause. -/
theorem c6_raw_interpolation (r a : String) (hr : r ≠ "") (ha : a ≠ "") :
    QueryCoord.whereClause { RefName := r, Allele := a, Coord := none } =
      "reference_name='" ++ r ++ "' AND reference_bases='" ++ a ++ "'" ∧
    P0.whereClause { RefName := r, Allele := a } =
      "reference_name='" ++ r ++ "' AND reference_bases='" ++ a ++ "'" := by
  constructor
  · unfold QueryCoord.whereClause
    rw [simpleClause_pos _ _ (by decide) hr, simpleClause_pos _ _ (by decide) ha]
    apply String.ext
    simp [joinAnd, String.data_append, List.append_assoc]
  · unfold P0.whereClause P0.bqCoordinatesToWhereClause
    rw [simpleClause_pos _ _ (by decide) hr, simpleClause_pos _ _ (by decide) ha]
    apply String.ext
    simp [joinAnd, String.data_append, List.append_assoc]

/-- Witness for C6 as amended: at concrete nonempty values the two
whereClauses are the raw interpolations. -/
theorem c6_raw_interpolation_witness :
    QueryCoord.whereClause { RefName := "chr17", Allele := "G", Coord := none } =
      "reference_name='" ++ "chr17" ++ "' AND reference_bases='" ++ "G" ++ "'" ∧
    P0.whereClause { RefName := "chr17", Allele := "G" } =
      "reference_name='" ++ "chr17" ++ "' AND reference_bases='" ++ "G" ++ "'" :=
  c6_raw_interpolation "chr17" "G" (by decide) (by decide)

/-- C7: in both HTTP handlers, whenever validation of the parsed Query fails,
the response is the validation error and the effect trace is empty: no
BigQuery client is constructed and Execute is never called. -/
theorem c7_validate_before_backend (q : QueryCoord) (e : String)
    (h : QueryCoord.ValidateInput q = some e)
    (nc : Except String Unit) (ex ex2 : QueryCoord → Bool × Option String) :
    serverQuery (Except.ok q) nc ex =
      (Response.badRequest ("validating input: " ++ e), []) ∧
    beaconAPIQuery (Except.ok q) ex2 =
      (Response.badRequest ("validating input: " ++ e), []) := by
  exact ⟨by simp [serverQuery, h], by simp [beaconAPIQuery, h]⟩

/-- Witness for C7: a Query with an empty chromosome fails validation, and
both handlers answer 400 without any backend-facing call. -/
theorem c7_validate_before_backend_witness :
    serverQuery (Except.ok { RefName := "", Allele := "", Coord := none })
        (Except.ok ()) (fun _ => (true, none)) =
      (Response.badRequest ("validating input: " ++ "missing chromosome name"), []) ∧
    beaconAPIQuery (Except.ok { RefName := "", Allele := "", Coord := none })
        (fun _ => (true, none)) =
      (Response.badRequest ("validating input: " ++ "missing chromosome name"), []) :=
  c7_validate_before_backend { RefName := "", Allele := "", Coord := none }
    "missing chromosome name" rfl (Except.ok ()) (fun _ => (true, none)) (fun _ => (true, none))

/-- C8: on every successful call (client constructed, read succeeded, row
decoded to `count`) Execute returns no error and returns true exactly when
the count is positive. -/
theorem c8_execute_true_iff_count_positive (q : QueryV) (tid : String)
    (rd : String → Except String Unit) (count : Int)
    (h : rd (P0.buildQuery tid q) = Except.ok ()) :
    P0.Execute q tid (Except.ok ()) rd (Except.ok count) = (decide (count > 0), none) := by
  simp [P0.Execute, h]

/-- Witness for C8: with a one-row count of 1 Execute returns (true, nil);
the decide normal form evaluates to true. -/
theorem c8_execute_true_iff_count_positive_witness :
    P0.Execute { RefName := "chr1", Allele := "A", Start := some 5 } "p.d.t"
        (Except.ok ()) (fun _ => Except.ok ()) (Except.ok 1) =
      (decide ((1 : Int) > 0), none) :=
  c8_execute_true_iff_count_positive { RefName := "chr1", Allele := "A", Start := some 5 }
    "p.d.t" (fun _ => Except.ok ()) 1 rfl

/-- C9: rendering the predicate is a pure function of the Query fields —
two renderings are identical — and the clause order is fixed: the
referenceName clause, then the allele clause, then the coordinate clauses,
joined with AND; for the single-coordinate variant the coordinate clause is
the one of C1. -/
theorem c9_whereClause_deterministic_ordered (q : QueryV) (qc : QueryCoord) (c : Int)
    (hr : q.RefName ≠ "") (ha : q.Allele ≠ "")
    (hr2 : qc.RefName ≠ "") (ha2 : qc.Allele ≠ "") (hc : qc.Coord = some c) :
    P0.whereClause q = P0.whereClause q ∧
    QueryCoord.whereClause qc = QueryCoord.whereClause qc ∧
    P0.whereClause q =
      "reference_name='" ++ q.RefName ++ "' AND reference_bases='" ++ q.Allele ++ "'" ++
        coordTail (P0.bqCoordinatesToWhereClause q) ∧
    QueryCoord.whereClause qc =
      "reference_name='" ++ qc.RefName ++ "' AND reference_bases='" ++ qc.Allele ++
        "' AND v.start <= " ++ toString c ++ " AND " ++ toString (addInt64 c 1) ++ " < v.end" := by
  refine ⟨rfl, rfl, ?_, ?_⟩
  · unfold P0.whereClause
    rw [simpleClause_pos _ _ (by decide) hr, simpleClause_pos _ _ (by decide) ha]
    simp only [List.cons_append, List.nil_append]
    rw [joinAnd_cons_cons]
    apply String.ext
    simp [String.data_append, List.append_assoc]
  · unfold QueryCoord.whereClause
    rw [hc, simpleClause_pos _ _ (by decide) hr2, simpleClause_pos _ _ (by decide) ha2]
    apply String.ext
    simp [joinAnd, String.data_append, List.append_assoc]

/-- Witness for C9: the characterization at a concrete precise-mode QueryV
and a concrete single-coordinate QueryCoord. -/
theorem c9_whereClause_deterministic_ordered_witness :
    P0.whereClause { RefName := "chr2", Allele := "T", Start := some 7 } =
      "reference_name='" ++ "chr2" ++ "' AND reference_bases='" ++ "T" ++ "'" ++
        coordTail (P0.bqCoordinatesToWhereClause
          { RefName := "chr2", Allele := "T", Start := some 7 }) ∧
    QueryCoord.whereClause { RefName := "chr2", Allele := "T", Coord := some 7 } =
      "reference_name='" ++ "chr2" ++ "' AND reference_bases='" ++ "T" ++
        "' AND v.start <= " ++ toString (7 : Int) ++ " AND " ++
        toString (addInt64 7 1) ++ " < v.end" := by
  have h := c9_whereClause_deterministic_ordered
    { RefName := "chr2", Allele := "T", Start := some 7 }
    { RefName := "chr2", Allele := "T", Coord := some 7 } 7
    (by decide) (by decide) (by decide) (by decide) rfl
  exact ⟨h.2.2.1, h.2.2.2⟩

/-- C10: whenever Execute returns a non-nil error — client construction
failed, the backend read failed, or the result row could not be decoded —
the boolean it returns is false. -/
theorem c10_error_implies_false (q : QueryV) (tid : String)
    (nc : Except String Unit) (rd : String → Except String Unit)
    (nx : Except String Int)
    (h : (P0.Execute q tid nc rd nx).2 ≠ none) :
    (P0.Execute q tid nc rd nx).1 = false := by
  rcases nc with e | u
  · simp [P0.Execute]
  · rcases h' : rd (P0.buildQuery tid q) with e' | u'
    · simp [P0.Execute, h']
    · rcases nx with e'' | count
      · simp [P0.Execute, h']
      · exact absurd (by simp [P0.Execute, h']) h

/-- Witness for C10: when client construction fails, Execute reports the
error and the existence flag is false. -/
theorem c10_error_implies_false_witness :
    (P0.Execute { RefName := "chr1", Allele := "A", Start := some 5 } "p.d.t"
        (Except.error "unreachable") (fun _ => Except.ok ()) (Except.ok 3)).2 ≠ none ∧
    (P0.Execute { RefName := "chr1", Allele := "A", Start := some 5 } "p.d.t"
        (Except.error "unreachable") (fun _ => Except.ok ()) (Except.ok 3)).1 = false :=
  ⟨by decide,
   c10_error_implies_false { RefName := "chr1", Allele := "A", Start := some 5 } "p.d.t"
     (Except.error "unreachable") (fun _ => Except.ok ()) (Except.ok 3) (by decide)⟩
